import Mathlib

/-!
Verification development for the "Dive, Laugh, Love" authoritative game server
(server.js, with the browser-side domain copies in src/domain/).

Shallow embedding conventions:
  * JS numbers that are always non-negative integers (oxygen, scores, counts)
    are Nat; board positions are Int because of the -1 / -99 sentinels.
  * Randomness (dice totals, trident d6, chip values) is passed in as explicit
    parameters instead of being drawn from Math.random.
  * state.log only ever grows by pushed strings and no property concerns the
    message text, so the log is modelled by its length (a Nat); every
    addLog / push site increments it.
  * JS objects gain fields dynamically (coop fields, bombs,
    anchorUsedThisRoll); the GameState/Player structures carry all fields,
    with the values undefined JS fields coerce to (false / none / 0).
  * Mutating handlers become functions GameState -> GameState x Option Event;
    a JS handler returning null is modelled as a none event, and the state
    component is whatever the handler left behind (so rejection really leaving
    the state untouched is a theorem, not a modelling artefact).
-/

/- ═══════════ Game constants (server.js / src/infra/constants.js) ═══════════ -/

def MIN_PLAYERS : Nat := 2
def MAX_PLAYERS : Nat := 6
def TOTAL_ROUNDS : Nat := 3
def STARTING_OXYGEN : Nat := 25

def CHIP_LEVELS : List Nat :=
  [1,1,1,1,1,1,1,1,
   2,2,2,2,2,2,2,2,
   3,3,3,3,3,3,3,3,
   4,4,4,4,4,4,4,4]

def BOARD_SIZE : Nat := CHIP_LEVELS.length

def DEPTH_CHARGES_PER_ROUND : Nat := 1
def DEPTH_CHARGE_OXYGEN_COST : Nat := 3
def ANCHOR_COST : Nat := 3
def ANCHOR_MULTIPLIER : Nat := 5
def COOP_TREASURE_PER_PLAYER : Nat := 30
def COOP_BOMB_COST : Nat := 20

/- ═══════════ Data model ═══════════ -/

/-- A board chip. JS monster chips store the string level and value 0;
the numeric level of a monster chip is never read, only the monster flag,
so monster chips are modelled with level 0 and monster = true. -/
structure Chip where
  id : Nat
  level : Nat
  value : Nat
  discovered : Bool
  monster : Bool
deriving Repr, DecidableEq

inductive Direction where
  | down
  | up
deriving Repr, DecidableEq

/-- Player record (server.js createPlayer, plus the bombs field that
handleBuyBomb creates lazily; an absent JS bombs field behaves as 0). -/
structure Player where
  id : Nat
  name : String
  position : Int
  direction : Direction
  carried : List Chip
  scored : List Chip
  drowned : Bool
  dead : Bool
  depthCharges : Nat
  anchorActive : Bool
  bombs : Nat
deriving Repr, DecidableEq

inductive TurnPhase where
  | direction
  | roll
  | pickup
  | endTurn
  | gameOver
deriving Repr, DecidableEq

inductive Mission where
  | treasure
  | monsters
deriving Repr, DecidableEq

/-- The authoritative game state. Versus games never set the co-op fields;
those JS-undefined fields are carried here with the values they coerce to
(coop false, mission none, coopScore 0, coopTarget none, flags false). -/
structure GameState where
  round : Nat
  maxRounds : Nat
  oxygen : Nat
  boardSize : Nat
  chips : List (Option Chip)
  players : List Player
  currentPlayerIndex : Nat
  turnPhase : TurnPhase
  diceResult : Option Nat
  roundOver : Bool
  gameOver : Bool
  winner : Option String
  log : Nat
  coop : Bool
  mission : Option Mission
  coopScore : Nat
  coopTarget : Option Nat
  monstersRemaining : Nat
  coopWin : Bool
  coopLose : Bool
  bombCost : Nat
  anchorUsedThisRoll : Bool
deriving Repr, DecidableEq

/-- Default player used for out-of-range list reads (reachable states only
index players inside the list, mirroring JS array indexing). -/
def defPlayer : Player :=
  { id := 0, name := "", position := -1, direction := .down, carried := [],
    scored := [], drowned := false, dead := false,
    depthCharges := DEPTH_CHARGES_PER_ROUND, anchorActive := false, bombs := 0 }

/- ═══════════ State factories (server.js createGameState etc.) ═══════════ -/

def createPlayer (id : Nat) (name : String) : Player :=
  { id := id, name := name, position := -1, direction := .down, carried := [],
    scored := [], drowned := false, dead := false,
    depthCharges := DEPTH_CHARGES_PER_ROUND, anchorActive := false, bombs := 0 }

/-- CHIP_LEVELS.map((level, index) => ...) with a running index; the chip
value randInt(lo, hi) is supplied by the oracle vals (the level ranges
constrain only the random draw, which is a parameter here). -/
def chipsFromLevels (vals : Nat → Nat) (i : Nat) : List Nat → List (Option Chip)
  | [] => []
  | level :: rest =>
      some { id := i, level := level, value := vals i, discovered := false, monster := false }
        :: chipsFromLevels vals (i + 1) rest

def createChips (vals : Nat → Nat) : List (Option Chip) :=
  chipsFromLevels vals 0 CHIP_LEVELS

/-- playerNames.map((name, i) => createPlayer(i, name)). -/
def playersFromNames (i : Nat) : List String → List Player
  | [] => []
  | name :: rest => createPlayer i name :: playersFromNames (i + 1) rest

def createGameState (names : List String) (vals : Nat → Nat) : GameState :=
  { round := 1, maxRounds := TOTAL_ROUNDS, oxygen := STARTING_OXYGEN,
    boardSize := BOARD_SIZE, chips := createChips vals,
    players := playersFromNames 0 names,
    currentPlayerIndex := 0, turnPhase := .direction, diceResult := none,
    roundOver := false, gameOver := false, winner := none, log := 0,
    coop := false, mission := none, coopScore := 0, coopTarget := none,
    monstersRemaining := 0, coopWin := false, coopLose := false,
    bombCost := 0, anchorUsedThisRoll := false }

/-- Math.round((span / (monsterCount + 1)) * (i + 1)) as exact rational
rounding (round half up); for the parameter range span <= 29, count <= 6
the IEEE double computation agrees with the exact rational. -/
def monsterOffset (span count i : Nat) : Nat :=
  (2 * span * (i + 1) + (count + 1)) / (2 * (count + 1))

def createMonsterChips (vals : Nat → Nat) (monsterCount : Nat) : List (Option Chip) :=
  let chips := createChips vals
  let lo := 6
  let hi := chips.length - 3
  let span := hi - lo
  let positions := (List.range monsterCount).map fun i => lo + monsterOffset span monsterCount i
  positions.foldl
    (fun cs pos =>
      cs.set pos (some { id := pos, level := 0, value := 0, discovered := true, monster := true }))
    chips

def createCoopGameState (names : List String) (vals : Nat → Nat) (mission : Mission) : GameState :=
  let isMonsterMission := mission = Mission.monsters
  let monsterCount := names.length
  { round := 1, maxRounds := TOTAL_ROUNDS, oxygen := STARTING_OXYGEN,
    boardSize := BOARD_SIZE,
    chips := if isMonsterMission then createMonsterChips vals monsterCount else createChips vals,
    players := playersFromNames 0 names,
    currentPlayerIndex := 0, turnPhase := .direction, diceResult := none,
    roundOver := false, gameOver := false, winner := none, log := 0,
    coop := true, mission := some mission, coopScore := 0,
    coopTarget := if mission = Mission.treasure then some (COOP_TREASURE_PER_PLAYER * names.length) else none,
    monstersRemaining := if isMonsterMission then monsterCount else 0,
    coopWin := false, coopLose := false,
    bombCost := COOP_BOMB_COST, anchorUsedThisRoll := false }

/- ═══════════ Rule helpers (server.js, mirror of src/domain/rules.js) ═══════════ -/

def oxygenCost (player : Player) : Nat := player.carried.length

/-- Math.max(0, oxygen - cost) is exactly truncated Nat subtraction. -/
def consumeOxygen (oxygen : Nat) (player : Player) : Nat := oxygen - oxygenCost player

def isOnSubmarine (player : Player) : Bool := player.position = -1

/-- The down-direction walk of computeDestination: step to pos+1, clamp at
the board end, stop short of a monster tile, occupied tiles do not consume
a step. The loop advances one tile per iteration, so its iteration count is
bounded by boardSize - pos; computeDestination passes that bound as the
structural fuel argument, which makes the function kernel-computable. The
fuel-exhausted case (pos already at or past the board end) clamps to the
last tile exactly as the loop bounds check does. -/
def computeDestDown (boardSize : Nat) (occupied : List Int) (monsters : Option (List Int)) :
    Int → Nat → Nat → Int
  | pos, 0, _ => pos
  | _, _ + 1, 0 => (boardSize : Int) - 1
  | pos, remaining + 1, fuel + 1 =>
      let next := pos + 1
      if next ≥ (boardSize : Int) then (boardSize : Int) - 1
      else if (match monsters with | some ms => ms.contains next | none => false) then pos
      else if occupied.contains next then
        computeDestDown boardSize occupied monsters next (remaining + 1) fuel
      else computeDestDown boardSize occupied monsters next remaining fuel

/-- The up-direction walk: step to pos-1, return -1 (submarine) past the
top, stop short of a monster tile, occupied tiles do not consume a step.
Fuel is the iteration bound pos+1; the fuel-exhausted case (pos already
below the board) returns the submarine exactly as the loop does. -/
def computeDestUp (occupied : List Int) (monsters : Option (List Int)) :
    Int → Nat → Nat → Int
  | pos, 0, _ => pos
  | _, _ + 1, 0 => -1
  | pos, remaining + 1, fuel + 1 =>
      let next := pos - 1
      if next < 0 then -1
      else if (match monsters with | some ms => ms.contains next | none => false) then pos
      else if occupied.contains next then
        computeDestUp occupied monsters next (remaining + 1) fuel
      else computeDestUp occupied monsters next remaining fuel

def computeDestination (currentPos : Int) (steps : Nat) (direction : Direction)
    (occupied : List Int) (boardSize : Nat) (monsters : Option (List Int)) : Int :=
  match direction with
  | .down => computeDestDown boardSize occupied monsters currentPos steps
      ((boardSize : Int) - currentPos).toNat
  | .up => computeDestUp occupied monsters currentPos steps (currentPos + 1).toNat

/-- Set of positions of other living on-board players (JS Set modelled as a
list with membership tests). -/
def occupiedBy (players : List Player) (excludeId : Nat) : List Int :=
  players.filterMap fun p =>
    if p.id ≠ excludeId ∧ p.position ≥ 0 ∧ p.dead = false then some p.position else none

/-- chips[player.position] with the JS out-of-range read (undefined) behaving
as an empty tile; reachable states keep positions inside the array. -/
def chipAt (chips : List (Option Chip)) (pos : Int) : Option Chip :=
  if pos < 0 then none else chips.getD pos.toNat none

def canPickUp (player : Player) (chips : List (Option Chip)) : Bool :=
  player.position ≥ 0 ∧ (chipAt chips player.position).isSome

def canDrop (player : Player) (chips : List (Option Chip)) : Bool :=
  player.carried.length > 0 ∧ player.position ≥ 0 ∧ (chipAt chips player.position).isNone

/-- Sum of chip values, as the JS reduce((s, c) => s + c.value, 0). -/
def chipTotal (cs : List Chip) : Nat := cs.foldl (fun s c => s + c.value) 0

def canBuyAnchor (player : Player) : Bool :=
  if player.position ≠ -1 ∨ player.anchorActive then false
  else ANCHOR_COST ≤ chipTotal player.scored

def canDepthCharge (player : Player) (chips : List (Option Chip)) (oxygen : Nat) : Bool :=
  if player.position < 0 ∨ player.depthCharges = 0 then false
  else if (chipAt chips player.position).isNone then false
  else DEPTH_CHARGE_OXYGEN_COST ≤ oxygen

def canBuyBomb (player : Player) (coopScore : Nat) : Bool :=
  if player.position ≠ -1 then false
  else COOP_BOMB_COST ≤ coopScore

def isMonsterTile (chips : List (Option Chip)) (pos : Int) : Bool :=
  match chipAt chips pos with
  | some c => c.monster
  | none => false

def canUseBomb (player : Player) (chips : List (Option Chip)) : Bool :=
  if player.position < 0 then false
  else if player.bombs = 0 then false
  else
    let pos := player.position
    let ahead := pos + 1 < (chips.length : Int) ∧ isMonsterTile chips (pos + 1)
    let behind := pos - 1 ≥ 0 ∧ isMonsterTile chips (pos - 1)
    ahead ∨ behind

def canPickUpCoop (player : Player) (chips : List (Option Chip)) : Bool :=
  if player.position < 0 then false
  else match chipAt chips player.position with
    | none => false
    | some chip => !chip.monster

/-- Indices of monster tiles, collected as Int for comparison against walk
positions. -/
def monsterPositionsFrom (i : Nat) : List (Option Chip) → List Int
  | [] => []
  | some c :: rest =>
      if c.monster then (i : Int) :: monsterPositionsFrom (i + 1) rest
      else monsterPositionsFrom (i + 1) rest
  | none :: rest => monsterPositionsFrom (i + 1) rest

def getMonsterPositions (chips : List (Option Chip)) : List Int :=
  monsterPositionsFrom 0 chips

inductive TridentResult where
  | kill
  | backfire
  | miss
deriving Repr, DecidableEq

/-- resolveTridentRoll with the drawn d6 passed in: roll >= 5 kills the
target, roll == 1 backfires onto the attacker, otherwise miss. -/
def resolveTridentRoll (roll : Nat) : TridentResult :=
  if roll ≥ 5 then .kill
  else if roll = 1 then .backfire
  else .miss

/-- server.js isRoundOver: oxygen exhausted always ends the round; co-op
otherwise never auto-ends (explicit end-round confirmation required);
versus ends when every living player is back on the sub. -/
def isRoundOver (oxygen : Nat) (players : List Player) (coop : Bool) : Bool :=
  if oxygen = 0 then true
  else if coop then false
  else (players.filter fun p => !p.dead).all fun p => p.position == -1

/-- src/domain/rules.js isRoundOver (browser copy): it declares only two
parameters, so the coop flag that turnEngine.js passes as a third argument
is silently discarded. -/
def rulesJsIsRoundOver (oxygen : Nat) (players : List Player) : Bool :=
  if oxygen = 0 then true
  else (players.filter fun p => !p.dead).all fun p => p.position == -1

def allPlayersOnSub (players : List Player) : Bool :=
  (players.filter fun p => !p.dead).all fun p => p.position == -1

/- ═══════════ Events (the dynamic objects handlers return for animation) ═══════════ -/

inductive LastEventType where
  | returnSub
  | coopWin
  | coopLose
  | gameOver
  | drown
  | roundEnd
  | pickup
  | chipDrop
  | bombBuy
deriving Repr, DecidableEq

/-- The duck-typed JS event object: each field is optionally present.
Free-text detail strings and player-name payloads carry no game logic and
are not modelled; only which fields are set is. -/
structure Event where
  diceTotal : Option Nat
  lastEventType : Option LastEventType
  lastKill : Bool
  lastKillBackfire : Bool
  lastAnchor : Bool
  lastSkip : Bool
  tridentMiss : Bool
  lastExplosion : Bool
  returnedToSub : Bool
  oxygenDepleted : Bool
  oxygenLow : Bool
deriving Repr, DecidableEq

def Event.empty : Event :=
  { diceTotal := none, lastEventType := none, lastKill := false,
    lastKillBackfire := false, lastAnchor := false, lastSkip := false,
    tridentMiss := false, lastExplosion := false, returnedToSub := false,
    oxygenDepleted := false, oxygenLow := false }

/-- Object.assign(event, rollEvent): fields the roll event sets overwrite the
base event field-wise. -/
def Event.merge (base e : Event) : Event :=
  { diceTotal := e.diceTotal.orElse fun _ => base.diceTotal,
    lastEventType := e.lastEventType.orElse fun _ => base.lastEventType,
    lastKill := base.lastKill || e.lastKill,
    lastKillBackfire := base.lastKillBackfire || e.lastKillBackfire,
    lastAnchor := base.lastAnchor || e.lastAnchor,
    lastSkip := base.lastSkip || e.lastSkip,
    tridentMiss := base.tridentMiss || e.tridentMiss,
    lastExplosion := base.lastExplosion || e.lastExplosion,
    returnedToSub := base.returnedToSub || e.returnedToSub,
    oxygenDepleted := base.oxygenDepleted || e.oxygenDepleted,
    oxygenLow := base.oxygenLow || e.oxygenLow }

/-- The block repeated after every endTurn call: when the game just ended,
replace event.lastEvent with the coopWin / coopLose / gameOver variant. -/
def patchGameOverEvent (s : GameState) (e : Event) : Event :=
  if s.gameOver then
    if s.coopWin then { e with lastEventType := some .coopWin }
    else if s.coopLose then { e with lastEventType := some .coopLose }
    else { e with lastEventType := some .gameOver }
  else e

/- ═══════════ Turn engine (server.js mirror of src/domain/turnEngine.js) ═══════════ -/

def playerScore (player : Player) : Nat := chipTotal player.scored

def determineWinner (s : GameState) : GameState :=
  let best := s.players.foldl
    (fun (acc : Int × String) p =>
      if (playerScore p : Int) > acc.1 then ((playerScore p : Int), p.name) else acc)
    ((-1 : Int), "")
  { s with winner := some best.2 }

/-- killPlayer: the victim loses carried chips (one log line when any were
carried), is flagged dead and parked at position -99. -/
def killPlayer (s : GameState) (idx : Nat) : GameState :=
  let p := s.players.getD idx defPlayer
  { s with
      log := s.log + (if p.carried.length > 0 then 1 else 0),
      players := s.players.set idx { p with carried := [], dead := true, position := -99 } }

/-- The advancePlayer while-loop: starting from the current index, step
(next+1) % n up to n times, skipping (and logging) dead players.
Returns the final index and the number of skip logs. -/
def advanceIdx (players : List Player) (n : Nat) (next : Nat) : Nat → Nat × Nat
  | 0 => (next, 0)
  | fuel + 1 =>
      let nx := (next + 1) % n
      if (players.getD nx defPlayer).dead then
        let r := advanceIdx players n nx fuel
        (r.1, r.2 + 1)
      else (nx, 0)

def advancePlayer (s : GameState) : GameState :=
  let n := s.players.length
  let r := advanceIdx s.players n s.currentPlayerIndex n
  { s with currentPlayerIndex := r.1, log := s.log + r.2 }

/-- Round reset applied to every player by endRound: players still underwater
lose their carried chips, everyone returns to the sub, per-round consumables
and the dead flag reset. -/
def resetPlayerRound (p : Player) : Player :=
  { p with
      carried := if p.position ≥ 0 then [] else p.carried,
      position := -1, direction := .down, dead := false,
      depthCharges := DEPTH_CHARGES_PER_ROUND, anchorActive := false }

/-- remainingChips.map((c, i) => ({ ...c, id: i })) as a walk with a running
index. -/
def reindexChips (i : Nat) : List Chip → List Chip
  | [] => []
  | c :: rest => { c with id := i } :: reindexChips (i + 1) rest

/-- state.chips.filter(c => c && c.monster).length. -/
def countMonsters (chips : List (Option Chip)) : Nat :=
  (chips.filter fun c => match c with | some ch => ch.monster | none => false).length

def endRound (s : GameState) : GameState :=
  -- one round-over log line, plus one per underwater player losing chips
  let lostLogs := (s.players.filter fun p => p.position ≥ 0 ∧ p.carried ≠ []).length
  let remaining := s.chips.filterMap id
  let chips1 := (reindexChips 0 remaining).map some
  let s1 : GameState :=
    { s with
        log := s.log + 1 + lostLogs,
        players := s.players.map resetPlayerRound,
        chips := chips1, boardSize := chips1.length }
  -- in the monster mission the co-op check block refreshes monstersRemaining
  -- before testing the win condition
  let s2 := if s1.coop ∧ s1.mission = some Mission.monsters
            then { s1 with monstersRemaining := countMonsters s1.chips } else s1
  if s2.coop ∧ s2.mission = some Mission.treasure ∧ s2.coopTarget.getD 0 ≤ s2.coopScore then
    { s2 with gameOver := true, coopWin := true, turnPhase := .gameOver, log := s2.log + 1 }
  else if s2.coop ∧ s2.mission = some Mission.monsters ∧ countMonsters s2.chips = 0
          ∧ (s2.players.all fun p => p.position == -1) then
    { s2 with gameOver := true, coopWin := true, turnPhase := .gameOver, log := s2.log + 1 }
  else if s2.maxRounds ≤ s2.round then
    if s2.coop then
      { s2 with gameOver := true, turnPhase := .gameOver, coopLose := true, log := s2.log + 1 }
    else
      let s3 := determineWinner { s2 with gameOver := true, turnPhase := .gameOver }
      { s3 with log := s3.log + 1 }
  else
    -- round += 1; oxygen refill; starter rotates to (round - 1) % playerCount
    { s2 with
        round := s2.round + 1, oxygen := STARTING_OXYGEN,
        currentPlayerIndex := s2.round % s2.players.length,
        turnPhase := .direction, diceResult := none, log := s2.log + 1 }

def endTurn (s : GameState) : GameState :=
  if isRoundOver s.oxygen s.players s.coop then endRound s
  else
    let s1 := advancePlayer s
    { s1 with turnPhase := .direction }

/-- turnEngine.js endTurn (browser copy): the call site passes !!state.coop
as a third argument to rules.js isRoundOver, but that function declares only
two parameters, so the flag is dropped. -/
def turnEngineEndTurn (s : GameState) : GameState :=
  if rulesJsIsRoundOver s.oxygen s.players then endRound s
  else
    let s1 := advancePlayer s
    { s1 with turnPhase := .direction }

/- ═══════════ Action handlers (server.js) ═══════════ -/

/-- The destination handleRoll moves the current player to: steps are
max(1, adjustedTotal - carriedCount) with the anchor multiplier applied to
the dice total when active, walked from the player position with other
living players skipped and (in the monster mission) monster tiles blocking.
In JS the subtraction can go negative before the max; Int subtraction
under the max models that exactly. -/
def rollDestination (s : GameState) (total : Nat) : Int :=
  let player := s.players.getD s.currentPlayerIndex defPlayer
  let occupied := occupiedBy s.players player.id
  let adjustedTotal := if player.anchorActive then total * ANCHOR_MULTIPLIER else total
  let effectiveSteps := (max 1 ((adjustedTotal : Int) - (player.carried.length : Int))).toNat
  let monsters := if s.coop ∧ s.mission = some Mission.monsters
                  then some (getMonsterPositions s.chips) else none
  computeDestination player.position effectiveSteps player.direction occupied
    s.boardSize monsters

def handleRoll (s : GameState) (total : Nat) : GameState × Option Event :=
  if s.turnPhase ≠ TurnPhase.roll then (s, none)
  else
    let i := s.currentPlayerIndex
    let player := s.players.getD i defPlayer
    let adjustedTotal := if player.anchorActive then total * ANCHOR_MULTIPLIER else total
    -- an active anchor multiplier is consumed by the roll
    let player1 := if player.anchorActive then { player with anchorActive := false } else player
    let dest := rollDestination s total
    let s1 := { s with
        players := s.players.set i { player1 with position := dest },
        diceResult := some total,
        anchorUsedThisRoll := adjustedTotal != total }
    if dest = -1 then
      -- returned to the submarine: bank carried chips
      let s2 :=
        if s.coop then
          { s1 with
              coopScore := s1.coopScore + chipTotal player.carried,
              players := s1.players.set i { player1 with position := dest, carried := [] } }
        else
          { s1 with
              players := s1.players.set i
                { player1 with position := dest, carried := [],
                               scored := player1.scored ++ player1.carried } }
      let s3 := endTurn { s2 with log := s2.log + 1, turnPhase := TurnPhase.endTurn }
      let ev : Event := { Event.empty with
          diceTotal := some total, lastEventType := some LastEventType.returnSub,
          returnedToSub := true }
      (s3, some (patchGameOverEvent s3 ev))
    else
      ({ s1 with log := s1.log + 1, turnPhase := TurnPhase.pickup },
       some { Event.empty with diceTotal := some total })

/-- The direction-setting prefix of handleChooseDirection: a player on the
sub is forced down, the direction is recorded, the phase moves to roll, and
oxygen is consumed for carried chips (none while on the sub). -/
def applyDirectionAndOxygen (s : GameState) (dirIn : Direction) : GameState :=
  let i := s.currentPlayerIndex
  let player := s.players.getD i defPlayer
  let dir := if player.position = -1 then Direction.down else dirIn
  let player1 := { player with direction := dir }
  let s1 := { s with players := s.players.set i player1,
                     turnPhase := TurnPhase.roll, log := s.log + 1 }
  if isOnSubmarine player1 then s1
  else
    { s1 with oxygen := consumeOxygen s1.oxygen player1,
              log := s1.log + (if player1.carried.length > 0 then 1 else 0) }

/-- The oxygen check of handleChooseDirection: at zero oxygen the turn ends
immediately (forcing the round end) with a drown / round-end / game-over
event and the oxygenDepleted flag; oxygen of at most 5 only flags the event
as low. -/
def oxygenDepletionStep (s2 : GameState) : GameState × Event :=
  let drownedCount := (s2.players.filter fun p => p.position ≥ 0 ∧ p.dead = false).length
  if s2.oxygen = 0 then
    let s3 := endTurn { s2 with turnPhase := TurnPhase.endTurn }
    let e0 : Event :=
      if s3.gameOver then patchGameOverEvent s3 Event.empty
      else if drownedCount > 0 then
        { Event.empty with lastEventType := some LastEventType.drown }
      else { Event.empty with lastEventType := some LastEventType.roundEnd }
    (s3, { e0 with oxygenDepleted := true })
  else if s2.oxygen ≤ 5 then (s2, { Event.empty with oxygenLow := true })
  else (s2, Event.empty)

def handleChooseDirection (s : GameState) (dirIn : Direction) (total : Nat) :
    GameState × Option Event :=
  if s.turnPhase ≠ TurnPhase.direction then (s, none)
  else
    let step3 := oxygenDepletionStep (applyDirectionAndOxygen s dirIn)
    let s3 := step3.1
    -- auto-roll immediately after choosing direction; the state is whatever
    -- the roll left behind, and a non-null roll event is merged into event
    if s3.turnPhase = TurnPhase.roll then
      let rolled := handleRoll s3 total
      (rolled.1, some (match rolled.2 with
        | some rollEv => step3.2.merge rollEv
        | none => step3.2))
    else (s3, some step3.2)

def canBuyAnchorCoop (player : Player) (coopScore : Nat) : Bool :=
  if player.position ≠ -1 ∨ player.anchorActive then false
  else ANCHOR_COST ≤ coopScore

/-- The versus anchor-purchase burn loop: remove ANCHOR_COST worth of value
from the (value-ascending sorted) scored pile, cheapest chips first, splitting
the last chip if needed. -/
def burnScored (remaining : Nat) : List Chip → List Chip
  | [] => []
  | chip :: rest =>
      if remaining = 0 then chip :: rest
      else if chip.value ≤ remaining then burnScored (remaining - chip.value) rest
      else { chip with value := chip.value - remaining } :: rest

def handleBuyAnchor (s : GameState) : GameState × Option Event :=
  if s.turnPhase ≠ TurnPhase.direction then (s, none)
  else
    let i := s.currentPlayerIndex
    let player := s.players.getD i defPlayer
    if s.coop then
      -- co-op: spend from the shared pool
      if !canBuyAnchorCoop player s.coopScore then (s, none)
      else
        ({ s with coopScore := s.coopScore - ANCHOR_COST,
                  players := s.players.set i { player with anchorActive := true },
                  log := s.log + 1 },
         some { Event.empty with lastAnchor := true })
    else
      -- versus: spend from the individual scored chips
      if !canBuyAnchor player then (s, none)
      else
        let sorted := player.scored.mergeSort fun a b => a.value ≤ b.value
        let player1 := { player with scored := burnScored ANCHOR_COST sorted,
                                     anchorActive := true }
        ({ s with players := s.players.set i player1, log := s.log + 1 },
         some { Event.empty with lastAnchor := true })

def handlePickUp (s : GameState) : GameState × Option Event :=
  if s.turnPhase ≠ TurnPhase.pickup then (s, none)
  else
    let i := s.currentPlayerIndex
    let player := s.players.getD i defPlayer
    let pickCheck := if s.coop then canPickUpCoop player s.chips else canPickUp player s.chips
    if !pickCheck then (s, none)
    else
      match chipAt s.chips player.position with
      | none => (s, none)   -- unreachable: the pick check guarantees a chip
      | some chip =>
        let chip1 := { chip with discovered := true }
        let s1 := { s with
            players := s.players.set i { player with carried := player.carried ++ [chip1] },
            chips := s.chips.set player.position.toNat none,
            log := s.log + 1, turnPhase := TurnPhase.endTurn }
        let s2 := endTurn s1
        (s2, some (patchGameOverEvent s2
          { Event.empty with lastEventType := some LastEventType.pickup }))

def handleDrop (s : GameState) : GameState × Option Event :=
  if s.turnPhase ≠ TurnPhase.pickup then (s, none)
  else
    let i := s.currentPlayerIndex
    let player := s.players.getD i defPlayer
    if !canDrop player s.chips then (s, none)
    else
      -- carried.pop(): the most recently picked-up chip
      match player.carried.getLast? with
      | none => (s, none)   -- unreachable: canDrop requires a carried chip
      | some chip =>
        let s1 := { s with
            players := s.players.set i { player with carried := player.carried.dropLast },
            chips := s.chips.set player.position.toNat (some chip),
            log := s.log + 1, turnPhase := TurnPhase.endTurn }
        let s2 := endTurn s1
        (s2, some (patchGameOverEvent s2
          { Event.empty with lastEventType := some LastEventType.chipDrop }))

def handleSkip (s : GameState) : GameState × Option Event :=
  if s.turnPhase ≠ TurnPhase.pickup then (s, none)
  else
    let s1 := endTurn { s with turnPhase := TurnPhase.endTurn }
    (s1, some (patchGameOverEvent s1 { Event.empty with lastSkip := true }))

/-- state.players.find(p => p.id === targetId), paired with the index of the
found player so the in-place mutation can be modelled as a list update. -/
def findPlayerIdxFrom (targetId : Nat) (i : Nat) : List Player → Option (Nat × Player)
  | [] => none
  | p :: rest => if p.id = targetId then some (i, p) else findPlayerIdxFrom targetId (i + 1) rest

def findPlayerIdx (players : List Player) (targetId : Nat) : Option (Nat × Player) :=
  findPlayerIdxFrom targetId 0 players

def handleTrident (s : GameState) (targetId : Nat) (roll : Nat) : GameState × Option Event :=
  if s.turnPhase ≠ TurnPhase.pickup then (s, none)
  else
    match findPlayerIdx s.players targetId with
    | none => (s, none)
    | some (tIdx, target) =>
      if target.dead ∨ target.position < 0 then (s, none)
      else
        match resolveTridentRoll roll with
        | .kill =>
            let s1 := killPlayer { s with log := s.log + 1 } tIdx
            let s2 := endTurn { s1 with turnPhase := TurnPhase.endTurn }
            (s2, some (patchGameOverEvent s2 { Event.empty with lastKill := true }))
        | .backfire =>
            let s1 := killPlayer { s with log := s.log + 1 } s.currentPlayerIndex
            let s2 := endTurn { s1 with turnPhase := TurnPhase.endTurn }
            (s2, some (patchGameOverEvent s2
              { Event.empty with lastKill := true, lastKillBackfire := true }))
        | .miss =>
            let s2 := endTurn { s with log := s.log + 1, turnPhase := TurnPhase.endTurn }
            (s2, some (patchGameOverEvent s2 { Event.empty with tridentMiss := true }))

def handleDepthCharge (s : GameState) : GameState × Option Event :=
  if s.turnPhase ≠ TurnPhase.pickup then (s, none)
  else
    let i := s.currentPlayerIndex
    let player := s.players.getD i defPlayer
    if !canDepthCharge player s.chips s.oxygen then (s, none)
    else
      let s1 := { s with
          chips := s.chips.set player.position.toNat none,
          players := s.players.set i { player with depthCharges := player.depthCharges - 1 },
          oxygen := s.oxygen - DEPTH_CHARGE_OXYGEN_COST,
          log := s.log + 1, turnPhase := TurnPhase.endTurn }
      let s2 := endTurn s1
      (s2, some (patchGameOverEvent s2 { Event.empty with lastExplosion := true }))

def handleBuyBomb (s : GameState) : GameState × Option Event :=
  if !s.coop ∨ s.turnPhase ≠ TurnPhase.direction then (s, none)
  else
    let i := s.currentPlayerIndex
    let player := s.players.getD i defPlayer
    if !canBuyBomb player s.coopScore then (s, none)
    else
      ({ s with coopScore := s.coopScore - COOP_BOMB_COST,
                players := s.players.set i { player with bombs := player.bombs + 1 },
                log := s.log + 1 },
       some { Event.empty with lastEventType := some LastEventType.bombBuy })

def handleUseBomb (s : GameState) : GameState × Option Event :=
  if !s.coop ∨ s.turnPhase ≠ TurnPhase.pickup then (s, none)
  else
    let i := s.currentPlayerIndex
    let player := s.players.getD i defPlayer
    if !canUseBomb player s.chips then (s, none)
    else
      let pos := player.position
      -- handleUseBomb bounds the forward look by state.boardSize
      -- (canUseBomb used chips.length)
      let targetPos : Int :=
        if pos + 1 < (s.boardSize : Int) ∧ isMonsterTile s.chips (pos + 1) then pos + 1
        else if pos - 1 ≥ 0 ∧ isMonsterTile s.chips (pos - 1) then pos - 1
        else -1
      if targetPos = -1 then (s, none)
      else
        let s1 := { s with
            chips := s.chips.set targetPos.toNat none,
            players := s.players.set i { player with bombs := player.bombs - 1 } }
        let s2 := { s1 with monstersRemaining := countMonsters s1.chips,
                            log := s1.log + 1, turnPhase := TurnPhase.endTurn }
        let s3 := endTurn s2
        (s3, some (patchGameOverEvent s3 { Event.empty with lastExplosion := true }))

def handleSkipSubTurn (s : GameState) : GameState × Option Event :=
  if s.turnPhase ≠ TurnPhase.direction then (s, none)
  else
    let player := s.players.getD s.currentPlayerIndex defPlayer
    if player.position ≠ -1 then (s, none)
    else if (s.players.filter fun p => !p.dead).all (fun p => p.position == -1) then
      -- cannot skip while everyone is still on the sub (first-turn deadlock)
      (s, none)
    else
      let s1 := endTurn { s with log := s.log + 1, turnPhase := TurnPhase.endTurn }
      (s1, some (patchGameOverEvent s1 { Event.empty with lastSkip := true }))

def handleEndRoundEarly (s : GameState) : GameState × Option Event :=
  if !s.coop ∨ s.turnPhase ≠ TurnPhase.direction then (s, none)
  else if !allPlayersOnSub s.players then (s, none)
  else
    let s1 := endRound { s with log := s.log + 1 }
    let ev := if s1.gameOver then patchGameOverEvent s1 Event.empty
              else { Event.empty with lastEventType := some LastEventType.roundEnd }
    (s1, some ev)

/- ═══════════ Protocol dispatch (server.js 'action' message case) ═══════════ -/

inductive GameAction where
  | chooseDirection (dir : Direction) (total : Nat)
  | buyAnchor
  | roll (total : Nat)
  | pickUp
  | dropChip
  | skip
  | skipSubTurn
  | endRoundEarly
  | trident (targetId : Nat) (roll : Nat)
  | depthCharge
  | buyBomb
  | useBomb
deriving Repr, DecidableEq

/-- The ACTION_HANDLERS table applied to one decoded action. -/
def applyAction (s : GameState) : GameAction → GameState × Option Event
  | .chooseDirection dir total => handleChooseDirection s dir total
  | .buyAnchor => handleBuyAnchor s
  | .roll total => handleRoll s total
  | .pickUp => handlePickUp s
  | .dropChip => handleDrop s
  | .skip => handleSkip s
  | .skipSubTurn => handleSkipSubTurn s
  | .endRoundEarly => handleEndRoundEarly s
  | .trident targetId roll => handleTrident s targetId roll
  | .depthCharge => handleDepthCharge s
  | .buyBomb => handleBuyBomb s
  | .useBomb => handleUseBomb s

/-- An inbound action envelope: the action discriminator string plus payload
fields, with the random draws (dice total, trident d6) the handler would make
carried as oracle values. -/
structure ActionMsg where
  action : String
  dir : Direction
  targetId : Nat
  total : Nat
  tridentRoll : Nat
deriving Repr, DecidableEq

/-- ACTION_HANDLERS[msg.action]: an unknown discriminator has no handler. -/
def decodeAction (m : ActionMsg) : Option GameAction :=
  if m.action = "choose-direction" then some (.chooseDirection m.dir m.total)
  else if m.action = "buy-anchor" then some .buyAnchor
  else if m.action = "roll" then some (.roll m.total)
  else if m.action = "pick-up" then some .pickUp
  else if m.action = "drop" then some .dropChip
  else if m.action = "skip" then some .skip
  else if m.action = "skip-sub-turn" then some .skipSubTurn
  else if m.action = "end-round-early" then some .endRoundEarly
  else if m.action = "trident" then some (.trident m.targetId m.tridentRoll)
  else if m.action = "depth-charge" then some .depthCharge
  else if m.action = "buy-bomb" then some .buyBomb
  else if m.action = "use-bomb" then some .useBomb
  else none

/-- Outcome of the 'action' case: either an error sent to the initiating
sender only, or a state broadcast (with event) to every room member. -/
inductive Reply where
  | errorToSender (msg : String)
  | broadcastAll (ev : Event)
deriving Repr, DecidableEq

/-- The 'action' message case: turn-ownership check, handler lookup, handler
invocation; null handler result means rejection (error to sender, no
broadcast). The state component is the room state after the case runs. -/
def dispatchAction (s : GameState) (senderId : Nat) (m : ActionMsg) : GameState × Reply :=
  if senderId ≠ s.currentPlayerIndex then (s, .errorToSender "Not your turn.")
  else
    match decodeAction m with
    | none => (s, .errorToSender "Unknown action.")
    | some a =>
      match applyAction s a with
      | (s1, none) => (s1, .errorToSender "Invalid action.")
      | (s1, some ev) => (s1, .broadcastAll ev)

/- ═══════════ Helper lemmas: lists, chip totals ═══════════ -/

theorem getD_set_self {α : Type _} (l : List α) (i : Nat) (a d : α) (h : i < l.length) :
    (l.set i a).getD i d = a := by
  simp [List.getD, List.getElem?_set_self', h]

theorem getD_set_ne_idx {α : Type _} (l : List α) {i j : Nat} (a d : α) (h : i ≠ j) :
    (l.set i a).getD j d = l.getD j d := by
  simp [List.getD, List.getElem?_set_ne h]

theorem getD_map_of_lt {α β : Type _} (l : List α) (f : α → β) (i : Nat) (d : β) (d' : α)
    (h : i < l.length) : (l.map f).getD i d = f (l.getD i d') := by
  simp [List.getD, List.getElem?_map, List.getElem?_eq_getElem h]

theorem getD_mem {α : Type _} (l : List α) (i : Nat) (d : α) (h : i < l.length) :
    l.getD i d ∈ l := by
  rw [List.getD_eq_getElem l d h]
  exact List.getElem_mem h

theorem chipTotal_foldl (l : List Chip) (a : Nat) :
    l.foldl (fun s c => s + c.value) a = a + chipTotal l := by
  induction l generalizing a with
  | nil => simp [chipTotal]
  | cons c rest ih =>
      simp only [chipTotal, List.foldl_cons] at *
      rw [ih, ih (0 + c.value)]
      omega

theorem chipTotal_cons (c : Chip) (l : List Chip) :
    chipTotal (c :: l) = c.value + chipTotal l := by
  show List.foldl (fun s c => s + c.value) 0 (c :: l) = c.value + chipTotal l
  rw [List.foldl_cons, chipTotal_foldl]
  omega

theorem chipTotal_append (l1 l2 : List Chip) :
    chipTotal (l1 ++ l2) = chipTotal l1 + chipTotal l2 := by
  induction l1 with
  | nil => simp [chipTotal]
  | cons c rest ih => simp [chipTotal_cons, ih]; omega

theorem chipTotal_eq_sum_map (l : List Chip) : chipTotal l = (l.map Chip.value).sum := by
  induction l with
  | nil => simp [chipTotal]
  | cons c rest ih => simp [chipTotal_cons, ih]

theorem chipTotal_perm {l1 l2 : List Chip} (h : List.Perm l1 l2) :
    chipTotal l1 = chipTotal l2 := by
  rw [chipTotal_eq_sum_map, chipTotal_eq_sum_map]
  exact (h.map Chip.value).sum_eq

/-- The anchor burn loop removes exactly the requested value when the pile
covers it. -/
theorem burnScored_total (r : Nat) (l : List Chip) (h : r ≤ chipTotal l) :
    chipTotal (burnScored r l) + r = chipTotal l := by
  induction l generalizing r with
  | nil =>
      simp only [chipTotal, List.foldl_nil] at h
      simp [burnScored, Nat.le_zero.mp h, chipTotal]
  | cons c rest ih =>
      rw [chipTotal_cons] at h ⊢
      simp only [burnScored]
      split
      · simp_all [chipTotal_cons]
      · split
        · rename_i hr hc
          have h' : r - c.value ≤ chipTotal rest := by omega
          have := ih (r - c.value) h'
          omega
        · rename_i hr hc
          rw [chipTotal_cons]
          simp only
          omega

theorem reindexChips_length (i : Nat) (l : List Chip) :
    (reindexChips i l).length = l.length := by
  induction l generalizing i with
  | nil => simp [reindexChips]
  | cons c rest ih => simp [reindexChips, ih]

theorem reindexChips_getD (l : List Chip) (i k : Nat) (d : Chip) (h : k < l.length) :
    (reindexChips i l).getD k d = { l.getD k d with id := i + k } := by
  induction l generalizing i k with
  | nil => simp at h
  | cons c rest ih =>
      cases k with
      | zero => simp [reindexChips]
      | succ k' =>
          have h' : k' < rest.length := by simpa using h
          simp only [reindexChips, List.getD_cons_succ]
          rw [ih (i + 1) k' h', show i + 1 + k' = i + (k' + 1) from by omega]

/- ═══════════ Turn-engine field lemmas ═══════════ -/

theorem advancePlayer_players (s : GameState) : (advancePlayer s).players = s.players := rfl

theorem advancePlayer_oxygen (s : GameState) : (advancePlayer s).oxygen = s.oxygen := rfl

theorem advancePlayer_coopScore (s : GameState) : (advancePlayer s).coopScore = s.coopScore := rfl

theorem advancePlayer_gameOver (s : GameState) : (advancePlayer s).gameOver = s.gameOver := rfl

theorem advancePlayer_round (s : GameState) : (advancePlayer s).round = s.round := rfl

theorem determineWinner_oxygen (s : GameState) : (determineWinner s).oxygen = s.oxygen := rfl

theorem endRound_oxygen (s : GameState) :
    (endRound s).oxygen = s.oxygen ∨ (endRound s).oxygen = STARTING_OXYGEN := by
  simp only [endRound]
  repeat' split
  all_goals simp [determineWinner]

theorem endRound_coopScore (s : GameState) : (endRound s).coopScore = s.coopScore := by
  simp only [endRound]
  repeat' split
  all_goals simp [determineWinner]

theorem endRound_players (s : GameState) :
    (endRound s).players = s.players.map resetPlayerRound := by
  simp only [endRound]
  repeat' split
  all_goals simp [determineWinner]

theorem endRound_chips (s : GameState) :
    (endRound s).chips = (reindexChips 0 (s.chips.filterMap id)).map some := by
  simp only [endRound]
  repeat' split
  all_goals simp [determineWinner]

theorem endRound_boardSize (s : GameState) :
    (endRound s).boardSize = ((reindexChips 0 (s.chips.filterMap id)).map some).length := by
  simp only [endRound]
  repeat' split
  all_goals simp [determineWinner]

theorem endTurn_oxygen (s : GameState) :
    (endTurn s).oxygen = s.oxygen ∨ (endTurn s).oxygen = STARTING_OXYGEN := by
  simp only [endTurn]
  split
  · exact endRound_oxygen s
  · left; rfl

theorem endTurn_coopScore (s : GameState) : (endTurn s).coopScore = s.coopScore := by
  simp only [endTurn]
  split
  · exact endRound_coopScore s
  · rfl

theorem endTurn_players (s : GameState) :
    (endTurn s).players = s.players ∨ (endTurn s).players = s.players.map resetPlayerRound := by
  simp only [endTurn]
  split
  · right; exact endRound_players s
  · left; rfl

theorem endTurn_players_of_not_over (s : GameState)
    (h : isRoundOver s.oxygen s.players s.coop = false) : (endTurn s).players = s.players := by
  simp only [endTurn, h]
  rfl

/- ═══════════ Oxygen tracking through the handlers ═══════════ -/

theorem endTurn_oxygen_eq_chain {x : GameState} {n : Nat} (hx : x.oxygen = n) :
    (endTurn x).oxygen = n ∨ (endTurn x).oxygen = STARTING_OXYGEN := by
  rcases endTurn_oxygen x with h | h
  · left; omega
  · right; exact h

theorem endTurn_oxygen_le_chain {x : GameState} {n : Nat} (hx : x.oxygen ≤ n) :
    (endTurn x).oxygen ≤ n ∨ (endTurn x).oxygen = STARTING_OXYGEN := by
  rcases endTurn_oxygen x with h | h
  · left; omega
  · right; exact h

theorem handleRoll_oxygen (s : GameState) (t : Nat) :
    (handleRoll s t).1.oxygen = s.oxygen ∨ (handleRoll s t).1.oxygen = STARTING_OXYGEN := by
  simp only [handleRoll]
  repeat' split
  all_goals first
    | (left; rfl)
    | exact endTurn_oxygen_eq_chain rfl

theorem handleRoll_oxygen_le_chain {x : GameState} {n : Nat} (t : Nat)
    (hx : x.oxygen ≤ n ∨ x.oxygen = STARTING_OXYGEN) :
    (handleRoll x t).1.oxygen ≤ n ∨ (handleRoll x t).1.oxygen = STARTING_OXYGEN := by
  rcases handleRoll_oxygen x t with h | h <;> rcases hx with h2 | h2
  · left; omega
  · right; omega
  · right; exact h
  · right; exact h


theorem applyDirectionAndOxygen_oxygen (s : GameState) (d : Direction) :
    (applyDirectionAndOxygen s d).oxygen ≤ s.oxygen := by
  simp only [applyDirectionAndOxygen]
  repeat' split
  all_goals first
    | exact Nat.le_refl _
    | exact Nat.sub_le _ _

theorem oxygenDepletionStep_oxygen (x : GameState) :
    (oxygenDepletionStep x).1.oxygen ≤ x.oxygen ∨
    (oxygenDepletionStep x).1.oxygen = STARTING_OXYGEN := by
  simp only [oxygenDepletionStep]
  split
  · exact endTurn_oxygen_le_chain le_rfl
  · split
    · left; exact le_rfl
    · left; exact le_rfl

theorem handleChooseDirection_oxygen (s : GameState) (d : Direction) (t : Nat) :
    (handleChooseDirection s d t).1.oxygen ≤ s.oxygen ∨
    (handleChooseDirection s d t).1.oxygen = STARTING_OXYGEN := by
  have hstep : (oxygenDepletionStep (applyDirectionAndOxygen s d)).1.oxygen ≤ s.oxygen ∨
      (oxygenDepletionStep (applyDirectionAndOxygen s d)).1.oxygen = STARTING_OXYGEN := by
    rcases oxygenDepletionStep_oxygen (applyDirectionAndOxygen s d) with h | h
    · left; exact le_trans h (applyDirectionAndOxygen_oxygen s d)
    · right; exact h
  simp only [handleChooseDirection]
  split
  · left; exact le_rfl
  · split
    · exact handleRoll_oxygen_le_chain _ hstep
    · exact hstep

theorem endRound_oxygen_le_chain {x : GameState} {n : Nat} (hx : x.oxygen ≤ n) :
    (endRound x).oxygen ≤ n ∨ (endRound x).oxygen = STARTING_OXYGEN := by
  rcases endRound_oxygen x with h | h
  · left; omega
  · right; exact h

theorem handleBuyAnchor_oxygen (s : GameState) : (handleBuyAnchor s).1.oxygen = s.oxygen := by
  simp only [handleBuyAnchor]
  repeat' split
  all_goals rfl

theorem handlePickUp_oxygen (s : GameState) :
    (handlePickUp s).1.oxygen ≤ s.oxygen ∨ (handlePickUp s).1.oxygen = STARTING_OXYGEN := by
  simp only [handlePickUp]
  repeat' split
  all_goals first
    | (left; exact Nat.le_refl _)
    | exact endTurn_oxygen_le_chain (Nat.le_refl _)

theorem handleDrop_oxygen (s : GameState) :
    (handleDrop s).1.oxygen ≤ s.oxygen ∨ (handleDrop s).1.oxygen = STARTING_OXYGEN := by
  simp only [handleDrop]
  repeat' split
  all_goals first
    | (left; exact Nat.le_refl _)
    | exact endTurn_oxygen_le_chain (Nat.le_refl _)

theorem handleSkip_oxygen (s : GameState) :
    (handleSkip s).1.oxygen ≤ s.oxygen ∨ (handleSkip s).1.oxygen = STARTING_OXYGEN := by
  simp only [handleSkip]
  repeat' split
  all_goals first
    | (left; exact Nat.le_refl _)
    | exact endTurn_oxygen_le_chain (Nat.le_refl _)

theorem handleTrident_oxygen (s : GameState) (targetId roll : Nat) :
    (handleTrident s targetId roll).1.oxygen ≤ s.oxygen ∨
    (handleTrident s targetId roll).1.oxygen = STARTING_OXYGEN := by
  simp only [handleTrident]
  repeat' split
  all_goals first
    | (left; exact Nat.le_refl _)
    | exact endTurn_oxygen_le_chain (Nat.le_refl _)

theorem handleDepthCharge_oxygen (s : GameState) :
    (handleDepthCharge s).1.oxygen ≤ s.oxygen ∨
    (handleDepthCharge s).1.oxygen = STARTING_OXYGEN := by
  simp only [handleDepthCharge]
  repeat' split
  all_goals first
    | (left; exact Nat.le_refl _)
    | exact endTurn_oxygen_le_chain (Nat.sub_le _ _)

theorem handleBuyBomb_oxygen (s : GameState) : (handleBuyBomb s).1.oxygen = s.oxygen := by
  simp only [handleBuyBomb]
  repeat' split
  all_goals rfl

theorem handleUseBomb_oxygen (s : GameState) :
    (handleUseBomb s).1.oxygen ≤ s.oxygen ∨ (handleUseBomb s).1.oxygen = STARTING_OXYGEN := by
  simp only [handleUseBomb]
  repeat' split
  all_goals first
    | (left; exact Nat.le_refl _)
    | exact endTurn_oxygen_le_chain (Nat.le_refl _)

theorem handleSkipSubTurn_oxygen (s : GameState) :
    (handleSkipSubTurn s).1.oxygen ≤ s.oxygen ∨
    (handleSkipSubTurn s).1.oxygen = STARTING_OXYGEN := by
  simp only [handleSkipSubTurn]
  repeat' split
  all_goals first
    | (left; exact Nat.le_refl _)
    | exact endTurn_oxygen_le_chain (Nat.le_refl _)

theorem handleEndRoundEarly_oxygen (s : GameState) :
    (handleEndRoundEarly s).1.oxygen ≤ s.oxygen ∨
    (handleEndRoundEarly s).1.oxygen = STARTING_OXYGEN := by
  simp only [handleEndRoundEarly]
  repeat' split
  all_goals first
    | (left; exact Nat.le_refl _)
    | exact endRound_oxygen_le_chain (Nat.le_refl _)

theorem applyAction_oxygen (s : GameState) (a : GameAction) :
    (applyAction s a).1.oxygen ≤ s.oxygen ∨ (applyAction s a).1.oxygen = STARTING_OXYGEN := by
  cases a with
  | chooseDirection d t => exact handleChooseDirection_oxygen s d t
  | buyAnchor => left; exact le_of_eq (handleBuyAnchor_oxygen s)
  | roll t => exact handleRoll_oxygen_le_chain t (Or.inl (Nat.le_refl _))
  | pickUp => exact handlePickUp_oxygen s
  | dropChip => exact handleDrop_oxygen s
  | skip => exact handleSkip_oxygen s
  | skipSubTurn => exact handleSkipSubTurn_oxygen s
  | endRoundEarly => exact handleEndRoundEarly_oxygen s
  | trident targetId roll => exact handleTrident_oxygen s targetId roll
  | depthCharge => exact handleDepthCharge_oxygen s
  | buyBomb => left; exact le_of_eq (handleBuyBomb_oxygen s)
  | useBomb => exact handleUseBomb_oxygen s

/- ═══════════ Rejection leaves the state untouched ═══════════ -/

theorem handleRoll_none (s : GameState) (t : Nat) :
    (handleRoll s t).2 = none → (handleRoll s t).1 = s := by
  simp only [handleRoll]
  repeat' split
  all_goals simp

theorem handleChooseDirection_none (s : GameState) (d : Direction) (t : Nat) :
    (handleChooseDirection s d t).2 = none → (handleChooseDirection s d t).1 = s := by
  simp only [handleChooseDirection]
  repeat' split
  all_goals simp

theorem handleBuyAnchor_none (s : GameState) :
    (handleBuyAnchor s).2 = none → (handleBuyAnchor s).1 = s := by
  simp only [handleBuyAnchor]
  repeat' split
  all_goals simp

theorem handlePickUp_none (s : GameState) :
    (handlePickUp s).2 = none → (handlePickUp s).1 = s := by
  simp only [handlePickUp]
  repeat' split
  all_goals simp

theorem handleDrop_none (s : GameState) :
    (handleDrop s).2 = none → (handleDrop s).1 = s := by
  simp only [handleDrop]
  repeat' split
  all_goals simp

theorem handleSkip_none (s : GameState) :
    (handleSkip s).2 = none → (handleSkip s).1 = s := by
  simp only [handleSkip]
  repeat' split
  all_goals simp

theorem handleTrident_none (s : GameState) (targetId roll : Nat) :
    (handleTrident s targetId roll).2 = none → (handleTrident s targetId roll).1 = s := by
  simp only [handleTrident]
  repeat' split
  all_goals simp

theorem handleDepthCharge_none (s : GameState) :
    (handleDepthCharge s).2 = none → (handleDepthCharge s).1 = s := by
  simp only [handleDepthCharge]
  repeat' split
  all_goals simp

theorem handleBuyBomb_none (s : GameState) :
    (handleBuyBomb s).2 = none → (handleBuyBomb s).1 = s := by
  simp only [handleBuyBomb]
  repeat' split
  all_goals simp

theorem handleUseBomb_none (s : GameState) :
    (handleUseBomb s).2 = none → (handleUseBomb s).1 = s := by
  simp only [handleUseBomb]
  repeat' split
  all_goals simp

theorem handleSkipSubTurn_none (s : GameState) :
    (handleSkipSubTurn s).2 = none → (handleSkipSubTurn s).1 = s := by
  simp only [handleSkipSubTurn]
  repeat' split
  all_goals simp

theorem handleEndRoundEarly_none (s : GameState) :
    (handleEndRoundEarly s).2 = none → (handleEndRoundEarly s).1 = s := by
  simp only [handleEndRoundEarly]
  repeat' split
  all_goals simp

theorem applyAction_none (s : GameState) (a : GameAction) :
    (applyAction s a).2 = none → (applyAction s a).1 = s := by
  cases a with
  | chooseDirection d t => exact handleChooseDirection_none s d t
  | buyAnchor => exact handleBuyAnchor_none s
  | roll t => exact handleRoll_none s t
  | pickUp => exact handlePickUp_none s
  | dropChip => exact handleDrop_none s
  | skip => exact handleSkip_none s
  | skipSubTurn => exact handleSkipSubTurn_none s
  | endRoundEarly => exact handleEndRoundEarly_none s
  | trident targetId roll => exact handleTrident_none s targetId roll
  | depthCharge => exact handleDepthCharge_none s
  | buyBomb => exact handleBuyBomb_none s
  | useBomb => exact handleUseBomb_none s

/- ═══════════ Per-player effect of endTurn ═══════════ -/

theorem endTurn_getD_player {x : GameState} {i : Nat} (hi : i < x.players.length) :
    (endTurn x).players.getD i defPlayer = x.players.getD i defPlayer ∨
    (endTurn x).players.getD i defPlayer = resetPlayerRound (x.players.getD i defPlayer) := by
  rcases endTurn_players x with h | h <;> rw [h]
  · left; rfl
  · right; exact getD_map_of_lt _ _ _ _ defPlayer hi

theorem endTurn_getD_carried_empty {x : GameState} {i : Nat} (hi : i < x.players.length)
    (hc : (x.players.getD i defPlayer).carried = []) :
    ((endTurn x).players.getD i defPlayer).carried = [] := by
  rcases endTurn_getD_player hi with h | h
  · rw [h]; exact hc
  · rw [h]
    simp only [resetPlayerRound]
    split
    · rfl
    · exact hc

theorem endTurn_getD_scored {x : GameState} {i : Nat} (hi : i < x.players.length) :
    ((endTurn x).players.getD i defPlayer).scored = (x.players.getD i defPlayer).scored := by
  rcases endTurn_getD_player hi with h | h
  · rw [h]
  · rw [h]; simp [resetPlayerRound]

theorem endTurn_getD_position_sub {x : GameState} {i : Nat} (hi : i < x.players.length)
    (hp : (x.players.getD i defPlayer).position = -1) :
    ((endTurn x).players.getD i defPlayer).position = -1 := by
  rcases endTurn_getD_player hi with h | h
  · rw [h]; exact hp
  · rw [h]; simp [resetPlayerRound]

theorem endTurn_getD_anchor_false {x : GameState} {i : Nat} (hi : i < x.players.length)
    (ha : (x.players.getD i defPlayer).anchorActive = false) :
    ((endTurn x).players.getD i defPlayer).anchorActive = false := by
  rcases endTurn_getD_player hi with h | h
  · rw [h]; exact ha
  · rw [h]; simp [resetPlayerRound]

/- ═══════════ Support lemmas for the trident claim ═══════════ -/

theorem findPlayerIdxFrom_spec (targetId : Nat) (l : List Player) (i tIdx : Nat) (target : Player)
    (h : findPlayerIdxFrom targetId i l = some (tIdx, target)) :
    i ≤ tIdx ∧ tIdx - i < l.length ∧ l.getD (tIdx - i) defPlayer = target := by
  induction l generalizing i with
  | nil => simp [findPlayerIdxFrom] at h
  | cons p rest ih =>
      simp only [findPlayerIdxFrom] at h
      split at h
      · rcases h with ⟨rfl, rfl⟩
        exact ⟨Nat.le_refl _, by simp, by simp⟩
      · obtain ⟨h1, h2, h3⟩ := ih (i + 1) h
        refine ⟨by omega, by simp only [List.length_cons]; omega, ?_⟩
        have heq : tIdx - i = (tIdx - (i + 1)) + 1 := by omega
        rw [heq, List.getD_cons_succ]
        exact h3

theorem findPlayerIdx_spec (players : List Player) (targetId tIdx : Nat) (target : Player)
    (h : findPlayerIdx players targetId = some (tIdx, target)) :
    tIdx < players.length ∧ players.getD tIdx defPlayer = target := by
  obtain ⟨_, h2, h3⟩ := findPlayerIdxFrom_spec targetId players 0 tIdx target h
  simp only [Nat.sub_zero] at h2 h3
  exact ⟨h2, h3⟩

/-- The round-over check is false whenever oxygen remains and some living
player is still on the board. -/
theorem isRoundOver_eq_false {oxygen : Nat} {players : List Player} (coop : Bool)
    (hox : oxygen ≠ 0) {p : Player} (hp : p ∈ players) (hd : p.dead = false)
    (hpos : 0 ≤ p.position) :
    isRoundOver oxygen players coop = false := by
  unfold isRoundOver
  rw [if_neg hox]
  split
  · rfl
  · rw [List.all_eq_false]
    refine ⟨p, List.mem_filter.mpr ⟨hp, by simp [hd]⟩, ?_⟩
    simp only [beq_iff_eq]
    omega

theorem resolveTridentRoll_kill {roll : Nat} (h : 5 ≤ roll) :
    resolveTridentRoll roll = TridentResult.kill := by
  simp [resolveTridentRoll, h]

theorem resolveTridentRoll_backfire : resolveTridentRoll 1 = TridentResult.backfire := by
  simp [resolveTridentRoll]

theorem resolveTridentRoll_miss {roll : Nat} (h2 : 2 ≤ roll) (h4 : roll ≤ 4) :
    resolveTridentRoll roll = TridentResult.miss := by
  unfold resolveTridentRoll
  rw [if_neg (by omega), if_neg (by omega)]

/- ═══════════ Concrete states for witnesses and counterexamples ═══════════ -/

def defChip : Chip := { id := 0, level := 1, value := 0, discovered := false, monster := false }

/-- A minimal two-player versus state (oxygen 10, empty board) from which the
concrete claim instances below are built. -/
def witnessBase : GameState :=
  { round := 1, maxRounds := 3, oxygen := 10, boardSize := 32,
    chips := List.replicate 32 none,
    players := [createPlayer 0 "A", createPlayer 1 "B"],
    currentPlayerIndex := 0, turnPhase := .direction, diceResult := none,
    roundOver := false, gameOver := false, winner := none, log := 0,
    coop := false, mission := none, coopScore := 0, coopTarget := none,
    monstersRemaining := 0, coopWin := false, coopLose := false,
    bombCost := 0, anchorUsedThisRoll := false }

/-- Value-5 chip carried in the C1 scenario. -/
def c1Chip : Chip := { id := 0, level := 1, value := 5, discovered := true, monster := false }

/-- Player 0 of the C1 scenario: on space 0, heading up, carrying c1Chip. -/
def c1Diver : Player :=
  { createPlayer 0 "A" with position := 0, direction := .up, carried := [c1Chip] }

/-- Co-op treasure state (2 players, target 60, pool 55) in the roll phase:
player 0 sits on space 0 heading up carrying a value-5 chip, so any roll
returns them to the sub and brings the pool to exactly the target. -/
def c1ReturnState : GameState :=
  { witnessBase with
      coop := true, mission := some .treasure, coopScore := 55, coopTarget := some 60,
      bombCost := 20, turnPhase := .roll,
      players := [c1Diver, createPlayer 1 "B"] }

/-- Co-op treasure state whose pool already holds the 60-point target. -/
def c1WinState : GameState :=
  { witnessBase with
      coop := true, mission := some .treasure, coopScore := 60, coopTarget := some 60,
      bombCost := 20 }

/-- Co-op state with oxygen 10 and both (living) players on the submarine. -/
def c2HomeState : GameState :=
  { witnessBase with
      coop := true, mission := some .treasure, coopTarget := some 60, bombCost := 20 }

/-- Chip carried by the diver of the C4 scenario. -/
def c4Carried : Chip := { id := 3, level := 2, value := 7, discovered := true, monster := false }

/-- Chip already banked by the diver of the C4 scenario. -/
def c4Scored : Chip := { id := 4, level := 1, value := 2, discovered := true, monster := false }

/-- Player 0 of the C4 scenario: on space 0 heading up, one carried chip and
one banked chip. -/
def c4Diver : Player :=
  { createPlayer 0 "A" with
      position := 0, direction := .up, carried := [c4Carried], scored := [c4Scored] }

/-- Versus roll-phase state in which the roll returns player 0 to the sub. -/
def c4ReturnState : GameState :=
  { witnessBase with
      turnPhase := .roll,
      players := [c4Diver, { createPlayer 1 "B" with position := 5 }] }

/-- The target of the C5 scenario: seat 1 on space 3, carrying a chip. -/
def c5Target : Player :=
  { createPlayer 1 "B" with
      position := 3,
      carried := [{ id := 9, level := 3, value := 9, discovered := true, monster := false }] }

/-- Pickup-phase state with attacker (seat 0, space 2) and c5Target. -/
def c5TridentState : GameState :=
  { witnessBase with
      turnPhase := .pickup,
      players := [{ createPlayer 0 "A" with position := 2 }, c5Target] }

/-- Full-oxygen versus state for the oxygen-invariant witness. -/
def c6State : GameState := { witnessBase with oxygen := STARTING_OXYGEN }

/-- Player 0 of the C7 scenario: on space 2 heading up with an active
anchor multiplier. -/
def c7Diver : Player :=
  { createPlayer 0 "A" with position := 2, direction := .up, anchorActive := true }

/-- Roll-phase state with an active anchor multiplier on player 0. -/
def c7RollState : GameState :=
  { witnessBase with
      turnPhase := .roll, players := [c7Diver, createPlayer 1 "B"] }

/-- State used for the rejected-action witness (seat 0 to move). -/
def c8State : GameState := { witnessBase with oxygen := 20 }

/-- An inbound roll intent used by the rejected-action witness. -/
def c8Msg : ActionMsg :=
  { action := "roll", dir := .down, targetId := 0, total := 4, tridentRoll := 1 }

/-- Board with gaps for the compaction witness. -/
def c9State : GameState :=
  { witnessBase with
      chips := [none,
                some { id := 7, level := 2, value := 6, discovered := true, monster := false },
                none,
                some { id := 9, level := 1, value := 1, discovered := false, monster := false }],
      boardSize := 4 }

/-- Player 0 of the C10 scenario: on the sub with 7 banked points. -/
def c10Buyer : Player :=
  { createPlayer 0 "A" with
    scored := [{ id := 0, level := 1, value := 2, discovered := true, monster := false },
               { id := 1, level := 2, value := 5, discovered := true, monster := false }] }

/-- Versus direction-phase state for the anchor-purchase witness. -/
def c10State : GameState :=
  { witnessBase with players := [c10Buyer, createPlayer 1 "B"] }

/- ═══════════ Claim theorems ═══════════ -/

/-- C1 counterexample: in a 2-player cooperative treasure game with target
60, player 0 returns to the submarine and brings the shared pool to exactly
the target (60), yet the game has not ended: gameOver and coopWin are still
false (the treasure check only runs inside endRound, which endTurn skips in
co-op while oxygen remains). -/
theorem coop_treasure_return_no_immediate_end_cex :
    (handleRoll c1ReturnState 2).1.coopScore = 60 ∧
    c1ReturnState.coopTarget = some 60 ∧
    (handleRoll c1ReturnState 2).1.gameOver = false ∧
    (handleRoll c1ReturnState 2).1.coopWin = false := by decide

/-- C1 (amended): in a cooperative treasure mission, whenever round-end
processing (endRound) runs with the shared pool at or above the target and
the mission not already failed, the game ends with the success result:
gameOver true, coopWin true and coopLose false. (The return itself only
credits the pool; the success result is produced at the next round end.) -/
theorem endRound_treasure_success (s : GameState) (tgt : Nat)
    (hc : s.coop = true) (hm : s.mission = some Mission.treasure)
    (htarget : s.coopTarget = some tgt) (hscore : tgt ≤ s.coopScore)
    (hl : s.coopLose = false) :
    (endRound s).gameOver = true ∧ (endRound s).coopWin = true ∧
    (endRound s).coopLose = false := by
  have ht : s.coopTarget.getD 0 ≤ s.coopScore := by rw [htarget]; exact hscore
  simp [endRound, hc, hm, ht, hl]

/-- C1 witness: endRound on a concrete 2-player treasure state with pool 60
and target 60 produces the success result. -/
theorem endRound_treasure_success_witness :
    (endRound c1WinState).gameOver = true ∧ (endRound c1WinState).coopWin = true ∧
    (endRound c1WinState).coopLose = false :=
  endRound_treasure_success c1WinState 60 (by decide) (by decide) (by decide) (by decide)
    (by decide)

/-- C2 (code-bug evidence): with oxygen 10 and every living player on the
submarine in a co-op game, the browser rules.js round-over check (which
drops the coop flag turnEngine.js passes it) reports the round over and the
browser endTurn therefore runs endRound (round advances to 2), while the
server check reports the round not over and the server endTurn merely
advances to the next player. -/
theorem browser_coop_round_autoend_divergence :
    rulesJsIsRoundOver c2HomeState.oxygen c2HomeState.players = true ∧
    isRoundOver c2HomeState.oxygen c2HomeState.players true = false ∧
    (turnEngineEndTurn c2HomeState).round = 2 ∧
    (endTurn c2HomeState).round = 1 ∧
    (endTurn c2HomeState).currentPlayerIndex = 1 := by decide

/-- C3: in versus mode the round-over condition holds exactly when the
oxygen is 0 or every player not marked dead is on the submarine
(position -1). -/
theorem versus_round_over_iff (oxygen : Nat) (players : List Player) :
    isRoundOver oxygen players false = true ↔
      (oxygen = 0 ∨ ∀ p ∈ players, p.dead = false → p.position = -1) := by
  unfold isRoundOver
  by_cases h : oxygen = 0
  · simp [h]
  · simp only [h, if_false, Bool.false_eq_true, List.all_eq_true, List.mem_filter,
      Bool.not_eq_true', beq_iff_eq, false_or, and_imp]

/-- C3 witness: the equivalence instantiated at zero oxygen on an empty
seat list. -/
theorem versus_round_over_iff_witness : isRoundOver 0 [] false = true :=
  (versus_round_over_iff 0 []).mpr (Or.inl rfl)

/-- C4: whenever a roll moves the current player back to the safe zone
(destination -1), then immediately after handleRoll the player's carried
list is empty, and the shared pool (co-op) respectively the player's
individual bank total (versus) has grown by exactly the total value the
player was carrying before the move. -/
theorem safe_return_banks_carried (s : GameState) (t : Nat)
    (hphase : s.turnPhase = TurnPhase.roll)
    (hi : s.currentPlayerIndex < s.players.length)
    (hdest : rollDestination s t = -1) :
    ((handleRoll s t).1.players.getD s.currentPlayerIndex defPlayer).carried = [] ∧
    (s.coop = true →
      (handleRoll s t).1.coopScore =
        s.coopScore + chipTotal (s.players.getD s.currentPlayerIndex defPlayer).carried) ∧
    (s.coop = false →
      playerScore ((handleRoll s t).1.players.getD s.currentPlayerIndex defPlayer) =
        playerScore (s.players.getD s.currentPlayerIndex defPlayer) +
          chipTotal (s.players.getD s.currentPlayerIndex defPlayer).carried) := by
  simp only [handleRoll, hphase, ne_eq, reduceCtorEq, not_false_eq_true, not_true, if_false,
    ite_false, ite_true, hdest, if_pos rfl]
  refine ⟨?_, ?_, ?_⟩
  · apply endTurn_getD_carried_empty
    · simp only [apply_ite GameState.players, apply_ite List.length, List.length_set, ite_self]
      exact hi
    · simp only [apply_ite GameState.players]
      split
      · rw [List.set_set, getD_set_self _ _ _ _ hi]
      · rw [List.set_set, getD_set_self _ _ _ _ hi]
  · intro hcoop
    rw [endTurn_coopScore]
    simp only [apply_ite GameState.coopScore, hcoop, ite_true, if_pos]
  · intro hcoop
    simp only [playerScore]
    rw [endTurn_getD_scored]
    · simp only [apply_ite GameState.players, hcoop]
      simp only [Bool.false_eq_true, ite_false, if_neg]
      rw [List.set_set, getD_set_self _ _ _ _ hi]
      simp only [apply_ite Player.scored, apply_ite Player.carried, ite_self]
      exact chipTotal_append _ _
    · simp only [apply_ite GameState.players, apply_ite List.length, List.length_set, ite_self]
      exact hi

/-- C4 witness: the banking property at a concrete versus state where the
roll returns player 0 carrying a value-7 chip to the submarine. -/
theorem safe_return_banks_carried_witness :
    ((handleRoll c4ReturnState 2).1.players.getD c4ReturnState.currentPlayerIndex
        defPlayer).carried = [] ∧
    (c4ReturnState.coop = true →
      (handleRoll c4ReturnState 2).1.coopScore =
        c4ReturnState.coopScore +
          chipTotal (c4ReturnState.players.getD c4ReturnState.currentPlayerIndex
            defPlayer).carried) ∧
    (c4ReturnState.coop = false →
      playerScore ((handleRoll c4ReturnState 2).1.players.getD
          c4ReturnState.currentPlayerIndex defPlayer) =
        playerScore (c4ReturnState.players.getD c4ReturnState.currentPlayerIndex defPlayer) +
          chipTotal (c4ReturnState.players.getD c4ReturnState.currentPlayerIndex
            defPlayer).carried) :=
  safe_return_banks_carried c4ReturnState 2 (by decide) (by decide) (by decide)

/-- C5: resolution of a trident attack on a valid target (alive, on the
board, distinct from the attacker), in a state where the round cannot end
this turn (oxygen remains and the attacker is a living on-board player): a
drawn d6 of 5 or 6 eliminates the target (carried chips lost, dead flag,
position -99) and leaves the attacker untouched; a 1 eliminates the
attacker the same way and leaves the target untouched; 2 to 4 eliminate
neither. -/
theorem trident_attack_resolution (s : GameState) (targetId roll tIdx : Nat) (target : Player)
    (hphase : s.turnPhase = TurnPhase.pickup)
    (hfind : findPlayerIdx s.players targetId = some (tIdx, target))
    (htd : target.dead = false) (htp : 0 ≤ target.position)
    (hi : s.currentPlayerIndex < s.players.length)
    (hne : tIdx ≠ s.currentPlayerIndex)
    (hox : s.oxygen ≠ 0)
    (haD : (s.players.getD s.currentPlayerIndex defPlayer).dead = false)
    (haP : 0 ≤ (s.players.getD s.currentPlayerIndex defPlayer).position) :
    (5 ≤ roll →
       (handleTrident s targetId roll).1.players.getD tIdx defPlayer =
         { target with carried := [], dead := true, position := -99 } ∧
       (handleTrident s targetId roll).1.players.getD s.currentPlayerIndex defPlayer =
         s.players.getD s.currentPlayerIndex defPlayer) ∧
    (roll = 1 →
       (handleTrident s targetId roll).1.players.getD s.currentPlayerIndex defPlayer =
         { s.players.getD s.currentPlayerIndex defPlayer with
             carried := [], dead := true, position := -99 } ∧
       (handleTrident s targetId roll).1.players.getD tIdx defPlayer = target) ∧
    (2 ≤ roll → roll ≤ 4 →
       (handleTrident s targetId roll).1.players.getD tIdx defPlayer = target ∧
       (handleTrident s targetId roll).1.players.getD s.currentPlayerIndex defPlayer =
         s.players.getD s.currentPlayerIndex defPlayer) := by
  obtain ⟨hlt, hgetD⟩ := findPlayerIdx_spec s.players targetId tIdx target hfind
  refine ⟨?_, ?_, ?_⟩
  · intro hroll
    simp only [handleTrident, hphase, ne_eq, reduceCtorEq, not_false_eq_true, not_true, if_false,
      ite_false, ite_true, hfind, resolveTridentRoll_kill hroll]
    rw [if_neg (by simp [htd]; omega)]
    simp only [killPlayer]
    have hno : isRoundOver s.oxygen (s.players.set tIdx
        { s.players.getD tIdx defPlayer with carried := [], dead := true, position := -99 })
        s.coop = false := by
      apply isRoundOver_eq_false (p := s.players.getD s.currentPlayerIndex defPlayer) s.coop hox
      · have hmem := getD_mem (s.players.set tIdx
          { s.players.getD tIdx defPlayer with carried := [], dead := true, position := -99 })
          s.currentPlayerIndex defPlayer (by simpa using hi)
        rwa [getD_set_ne_idx _ _ _ hne] at hmem
      · exact haD
      · exact haP
    rw [endTurn_players_of_not_over]
    · dsimp only
      constructor
      · rw [getD_set_self s.players tIdx _ defPlayer hlt, hgetD]
      · rw [getD_set_ne_idx s.players _ defPlayer hne]
    · exact hno
  · intro hroll
    subst hroll
    simp only [handleTrident, hphase, ne_eq, reduceCtorEq, not_false_eq_true, not_true, if_false,
      ite_false, ite_true, hfind, resolveTridentRoll_backfire]
    rw [if_neg (by simp [htd]; omega)]
    simp only [killPlayer]
    have hno : isRoundOver s.oxygen (s.players.set s.currentPlayerIndex
        { s.players.getD s.currentPlayerIndex defPlayer with
            carried := [], dead := true, position := -99 })
        s.coop = false := by
      apply isRoundOver_eq_false (p := target) s.coop hox
      · have hmem := getD_mem (s.players.set s.currentPlayerIndex
          { s.players.getD s.currentPlayerIndex defPlayer with
              carried := [], dead := true, position := -99 })
          tIdx defPlayer (by simpa using hlt)
        rwa [getD_set_ne_idx _ _ _ (Ne.symm hne), hgetD] at hmem
      · exact htd
      · exact htp
    rw [endTurn_players_of_not_over]
    · dsimp only
      constructor
      · rw [getD_set_self s.players s.currentPlayerIndex _ defPlayer hi]
      · rw [getD_set_ne_idx s.players _ defPlayer (Ne.symm hne), hgetD]
    · exact hno
  · intro h2 h4
    simp only [handleTrident, hphase, ne_eq, reduceCtorEq, not_false_eq_true, not_true, if_false,
      ite_false, ite_true, hfind, resolveTridentRoll_miss h2 h4]
    rw [if_neg (by simp [htd]; omega)]
    have hno : isRoundOver s.oxygen s.players s.coop = false := by
      apply isRoundOver_eq_false (p := s.players.getD s.currentPlayerIndex defPlayer) s.coop hox
      · exact getD_mem s.players s.currentPlayerIndex defPlayer hi
      · exact haD
      · exact haP
    rw [endTurn_players_of_not_over]
    · dsimp only
      exact ⟨hgetD, rfl⟩
    · exact hno

/-- C5 witness: the resolution property at a concrete pickup-phase state,
instantiated with a drawn roll of 6. -/
theorem trident_attack_resolution_witness :
    (5 ≤ 6 →
       (handleTrident c5TridentState 1 6).1.players.getD 1 defPlayer =
         { c5Target with carried := [], dead := true, position := -99 } ∧
       (handleTrident c5TridentState 1 6).1.players.getD
           c5TridentState.currentPlayerIndex defPlayer =
         c5TridentState.players.getD c5TridentState.currentPlayerIndex defPlayer) ∧
    ((6 : Nat) = 1 →
       (handleTrident c5TridentState 1 6).1.players.getD
           c5TridentState.currentPlayerIndex defPlayer =
         { c5TridentState.players.getD c5TridentState.currentPlayerIndex defPlayer with
             carried := [], dead := true, position := -99 } ∧
       (handleTrident c5TridentState 1 6).1.players.getD 1 defPlayer = c5Target) ∧
    (2 ≤ 6 → (6 : Nat) ≤ 4 →
       (handleTrident c5TridentState 1 6).1.players.getD 1 defPlayer = c5Target ∧
       (handleTrident c5TridentState 1 6).1.players.getD
           c5TridentState.currentPlayerIndex defPlayer =
         c5TridentState.players.getD c5TridentState.currentPlayerIndex defPlayer) :=
  trident_attack_resolution c5TridentState 1 6 1 c5Target (by decide) (by decide) (by decide)
    (by decide) (by decide) (by decide) (by decide) (by decide) (by decide)

/-- C6: oxygen starts at 25 in both game factories, and from any state with
oxygen at most 25, every action leaves oxygen at most 25 and either does not
increase it or restores it to exactly the starting value (the endRound
round-reset refill). Oxygen is a Nat because every write clamps at zero with
Math.max, so the lower bound of the claim holds by construction. -/
theorem oxygen_bounded_and_monotone :
    (∀ names vals, (createGameState names vals).oxygen = STARTING_OXYGEN) ∧
    (∀ names vals m, (createCoopGameState names vals m).oxygen = STARTING_OXYGEN) ∧
    (∀ (s : GameState) (a : GameAction), s.oxygen ≤ STARTING_OXYGEN →
      (applyAction s a).1.oxygen ≤ STARTING_OXYGEN ∧
      ((applyAction s a).1.oxygen ≤ s.oxygen ∨
        (applyAction s a).1.oxygen = STARTING_OXYGEN)) := by
  refine ⟨fun _ _ => rfl, fun _ _ _ => rfl, fun s a h => ?_⟩
  rcases applyAction_oxygen s a with h1 | h1
  · exact ⟨by omega, Or.inl h1⟩
  · exact ⟨by omega, Or.inr h1⟩

/-- C6 witness: the invariant step instantiated at a concrete full-oxygen
state and the skip action. -/
theorem oxygen_bounded_and_monotone_witness :
    (applyAction c6State GameAction.skip).1.oxygen ≤ STARTING_OXYGEN ∧
    ((applyAction c6State GameAction.skip).1.oxygen ≤ c6State.oxygen ∨
      (applyAction c6State GameAction.skip).1.oxygen = STARTING_OXYGEN) :=
  oxygen_bounded_and_monotone.2.2 c6State GameAction.skip (by decide)

/-- C7: the roll moves the current player to the tile computed by walking
max(1, adjustedRoll - carriedCount) steps, where adjustedRoll is the dice
total times 5 when the anchor multiplier is active and the plain total
otherwise, and after the roll the player's multiplier flag is always
consumed (false). -/
theorem roll_steps_and_anchor (s : GameState) (t : Nat)
    (hphase : s.turnPhase = TurnPhase.roll)
    (hi : s.currentPlayerIndex < s.players.length) :
    rollDestination s t = computeDestination
        (s.players.getD s.currentPlayerIndex defPlayer).position
        (max 1 (((if (s.players.getD s.currentPlayerIndex defPlayer).anchorActive
                  then t * ANCHOR_MULTIPLIER else t : Nat) : Int) -
                ((s.players.getD s.currentPlayerIndex defPlayer).carried.length : Int))).toNat
        (s.players.getD s.currentPlayerIndex defPlayer).direction
        (occupiedBy s.players (s.players.getD s.currentPlayerIndex defPlayer).id)
        s.boardSize
        (if s.coop ∧ s.mission = some Mission.monsters
         then some (getMonsterPositions s.chips) else none) ∧
    ((handleRoll s t).1.players.getD s.currentPlayerIndex defPlayer).position =
      rollDestination s t ∧
    ((handleRoll s t).1.players.getD s.currentPlayerIndex defPlayer).anchorActive = false := by
  refine ⟨rfl, ?_⟩
  by_cases hdest : rollDestination s t = -1
  · simp only [handleRoll, hphase, ne_eq, reduceCtorEq, not_false_eq_true, not_true, if_false,
      ite_false, ite_true, hdest, if_pos rfl]
    constructor
    · apply endTurn_getD_position_sub
      · simp only [apply_ite GameState.players, apply_ite List.length, List.length_set, ite_self]
        exact hi
      · simp only [apply_ite GameState.players]
        split
        · rw [List.set_set, getD_set_self _ _ _ _ hi]
        · rw [List.set_set, getD_set_self _ _ _ _ hi]
    · apply endTurn_getD_anchor_false
      · simp only [apply_ite GameState.players, apply_ite List.length, List.length_set, ite_self]
        exact hi
      · simp only [apply_ite GameState.players]
        split
        · rw [List.set_set, getD_set_self _ _ _ _ hi]
          simp only [apply_ite Player.anchorActive]
          split
          · rfl
          · rename_i h; simpa using h
        · rw [List.set_set, getD_set_self _ _ _ _ hi]
          simp only [apply_ite Player.anchorActive]
          split
          · rfl
          · rename_i h; simpa using h
  · simp only [handleRoll, hphase, ne_eq, reduceCtorEq, not_false_eq_true, not_true, if_false,
      ite_false, ite_true, hdest, if_neg]
    rw [getD_set_self _ _ _ _ hi]
    constructor
    · rfl
    · simp only [apply_ite Player.anchorActive]
      split
      · rfl
      · rename_i h; simpa using h

/-- C7 witness: the step rule at a concrete state with an active anchor
(dice total 2, so 10 effective steps); the anchor is consumed. -/
theorem roll_steps_and_anchor_witness :
    rollDestination c7RollState 2 = computeDestination
        (c7RollState.players.getD c7RollState.currentPlayerIndex defPlayer).position
        (max 1 (((if (c7RollState.players.getD c7RollState.currentPlayerIndex
                      defPlayer).anchorActive
                  then 2 * ANCHOR_MULTIPLIER else 2 : Nat) : Int) -
                ((c7RollState.players.getD c7RollState.currentPlayerIndex
                    defPlayer).carried.length : Int))).toNat
        (c7RollState.players.getD c7RollState.currentPlayerIndex defPlayer).direction
        (occupiedBy c7RollState.players
          (c7RollState.players.getD c7RollState.currentPlayerIndex defPlayer).id)
        c7RollState.boardSize
        (if c7RollState.coop ∧ c7RollState.mission = some Mission.monsters
         then some (getMonsterPositions c7RollState.chips) else none) ∧
    ((handleRoll c7RollState 2).1.players.getD c7RollState.currentPlayerIndex
        defPlayer).position = rollDestination c7RollState 2 ∧
    ((handleRoll c7RollState 2).1.players.getD c7RollState.currentPlayerIndex
        defPlayer).anchorActive = false :=
  roll_steps_and_anchor c7RollState 2 (by decide) (by decide)

/-- C8: every rejected inbound action message (sender not the current
player, unknown action kind, or handler refusing the action as illegal in
the current phase/state) produces an error reply addressed to the sender
only, with the room state unchanged and no state broadcast. -/
theorem rejected_action_no_mutation (s : GameState) (senderId : Nat) (m : ActionMsg)
    (h : senderId ≠ s.currentPlayerIndex ∨ decodeAction m = none ∨
         (∃ a, decodeAction m = some a ∧ (applyAction s a).2 = none)) :
    ∃ msg, dispatchAction s senderId m = (s, Reply.errorToSender msg) := by
  unfold dispatchAction
  by_cases hs : senderId ≠ s.currentPlayerIndex
  · rw [if_pos hs]; exact ⟨_, rfl⟩
  · rw [if_neg hs]
    rcases h with h | h | ⟨a, ha, hnone⟩
    · exact absurd h hs
    · rw [h]; exact ⟨_, rfl⟩
    · rw [ha]
      have hst := applyAction_none s a hnone
      split
      · exact ⟨_, rfl⟩
      · rename_i s1 ev heq
        injection heq with hae
        subst hae
        split
        · rename_i s2 heq2
          rw [heq2] at hst
          simp only at hst
          subst hst
          exact ⟨_, rfl⟩
        · rename_i s2 ev2 heq2
          rw [heq2] at hnone
          simp at hnone

/-- C8 witness: seat 1 sends a roll intent while seat 0 holds the turn; the
dispatcher replies with an error to the sender and the state is unchanged. -/
theorem rejected_action_no_mutation_witness :
    ∃ msg, dispatchAction c8State 1 c8Msg = (c8State, Reply.errorToSender msg) :=
  rejected_action_no_mutation c8State 1 c8Msg (Or.inl (by decide))

/-- C9: board compaction at round end keeps exactly the non-null chips in
their relative order, re-assigns chip ids contiguously from 0, sets
boardSize to the new chip count, and leaves no null entries on the board. -/
theorem board_compaction_round_end (s : GameState) :
    (endRound s).chips.length = (s.chips.filterMap id).length ∧
    (endRound s).boardSize = (s.chips.filterMap id).length ∧
    (∀ k, k < (s.chips.filterMap id).length →
       (endRound s).chips.getD k none =
         some { (s.chips.filterMap id).getD k defChip with id := k }) ∧
    ∀ c ∈ (endRound s).chips, c ≠ none := by
  refine ⟨?_, ?_, ?_, ?_⟩
  · rw [endRound_chips]
    simp [reindexChips_length]
  · rw [endRound_boardSize]
    simp [reindexChips_length]
  · intro k hk
    rw [endRound_chips]
    have hk' : k < (reindexChips 0 (s.chips.filterMap id)).length := by
      rw [reindexChips_length]; exact hk
    rw [getD_map_of_lt _ some k none defChip hk', reindexChips_getD _ _ _ _ hk]
    simp
  · intro c hc
    rw [endRound_chips] at hc
    rcases List.mem_map.mp hc with ⟨a, _, rfl⟩
    simp

/-- C9 witness: compaction of a concrete 4-tile board with two gaps, checked
at index 1. -/
theorem board_compaction_round_end_witness :
    (endRound c9State).chips.getD 1 none =
      some { (c9State.chips.filterMap id).getD 1 defChip with id := 1 } :=
  (board_compaction_round_end c9State).2.2.1 1 (by decide)

/-- C10: in versus mode, a player on the submarine without an active anchor
and with at least 3 points of banked value who buys an anchor gets
anchorActive set and their bank total (sum of scored chip values) reduced by
exactly the 3-point anchor cost — the cheapest-first burn loop removes no
more than that. -/
theorem buy_anchor_versus_cost (s : GameState)
    (hc : s.coop = false) (hphase : s.turnPhase = TurnPhase.direction)
    (hi : s.currentPlayerIndex < s.players.length)
    (hsub : (s.players.getD s.currentPlayerIndex defPlayer).position = -1)
    (hA : (s.players.getD s.currentPlayerIndex defPlayer).anchorActive = false)
    (hv : ANCHOR_COST ≤ playerScore (s.players.getD s.currentPlayerIndex defPlayer)) :
    ((handleBuyAnchor s).1.players.getD s.currentPlayerIndex defPlayer).anchorActive = true ∧
    playerScore ((handleBuyAnchor s).1.players.getD s.currentPlayerIndex defPlayer) +
        ANCHOR_COST =
      playerScore (s.players.getD s.currentPlayerIndex defPlayer) := by
  have hcan : canBuyAnchor (s.players.getD s.currentPlayerIndex defPlayer) = true := by
    unfold canBuyAnchor
    rw [if_neg (by rw [not_or]; exact ⟨fun hcon => hcon hsub, by rw [hA]; exact Bool.false_ne_true⟩)]
    simpa [playerScore, decide_eq_true_iff] using hv
  simp only [handleBuyAnchor, hphase, ne_eq, reduceCtorEq, not_false_eq_true, not_true, if_false,
    ite_false, ite_true, hc, Bool.false_eq_true, hcan, Bool.not_true]
  rw [getD_set_self s.players _ _ defPlayer hi]
  refine ⟨rfl, ?_⟩
  have hperm := List.mergeSort_perm
    (s.players.getD s.currentPlayerIndex defPlayer).scored (fun a b => a.value ≤ b.value)
  have hsorted : chipTotal ((s.players.getD s.currentPlayerIndex defPlayer).scored.mergeSort
      (fun a b => a.value ≤ b.value)) =
      chipTotal (s.players.getD s.currentPlayerIndex defPlayer).scored := chipTotal_perm hperm
  have hble : ANCHOR_COST ≤
      chipTotal ((s.players.getD s.currentPlayerIndex defPlayer).scored.mergeSort
        (fun a b => a.value ≤ b.value)) := by
    rw [hsorted]; simpa [playerScore] using hv
  have hburn := burnScored_total ANCHOR_COST _ hble
  simp only [playerScore] at *
  omega

/-- C10 witness: buying an anchor at a concrete state with banked chips of
values 2 and 5 leaves anchorActive true and bank total 4. -/
theorem buy_anchor_versus_cost_witness :
    ((handleBuyAnchor c10State).1.players.getD c10State.currentPlayerIndex
        defPlayer).anchorActive = true ∧
    playerScore ((handleBuyAnchor c10State).1.players.getD c10State.currentPlayerIndex
        defPlayer) + ANCHOR_COST =
      playerScore (c10State.players.getD c10State.currentPlayerIndex defPlayer) :=
  buy_anchor_versus_cost c10State (by decide) (by decide) (by decide) (by decide) (by decide)
    (by decide)
